import Mathlib

-- Verification of the resilient README generation pipeline
-- (src/readme-gen-pro/src/lib/ai-agent.ts).
-- Documents are modelled as List Char, one entry per code point; the
-- JavaScript regular expressions of the source are implemented directly
-- over that representation.

set_option linter.unusedVariables false

deriving instance DecidableEq for Except

namespace ReadmeGen

/-- Whitespace characters matched by the JavaScript character class backslash-s,
restricted to the ASCII range; line terminators are modelled as the newline
character. -/
def jsWhitespace (c : Char) : Bool :=
  c == ' ' || c == '\t' || c == '\n' || c == '\r' || c == '\x0b' || c == '\x0c'

/-- ASCII fragment of JavaScript toLowerCase; the patterns in the source are
ASCII-only, so other characters pass through unchanged. -/
def jsToLower (c : Char) : Char :=
  if 'A' ≤ c ∧ c ≤ 'Z' then Char.ofNat (c.toNat + 32) else c

/-- Backtick character, written by code point. -/
def backtickChar : Char := Char.ofNat 96

/-- Apostrophe character, written by code point. -/
def apostropheChar : Char := Char.ofNat 39

/-- Case-sensitive prefix test on character lists. -/
def isPrefixList : List Char → List Char → Bool
  | [], _ => true
  | _ :: _, [] => false
  | a :: as, b :: bs => a == b && isPrefixList as bs

/-- Case-sensitive substring test (JavaScript String.includes). -/
def containsSub (needle : List Char) : List Char → Bool
  | [] => isPrefixList needle []
  | c :: rest => isPrefixList needle (c :: rest) || containsSub needle rest

/-- Case-insensitive prefix test, implementing the JavaScript i flag for the
ASCII patterns of the source. -/
def isPrefixCI : List Char → List Char → Bool
  | [], _ => true
  | _ :: _, [] => false
  | a :: as, b :: bs => jsToLower a == jsToLower b && isPrefixCI as bs

/-- Removes pre from the front of s when it is present there
(case-insensitively), as one anchored String.replace with empty replacement. -/
def stripLeadCI (pre s : List Char) : List Char :=
  if isPrefixCI pre s then s.drop pre.length else s

/-- Removes suf from the end of s when it is present there
(case-insensitively), as one end-anchored String.replace with empty
replacement. -/
def stripTrailCI (suf s : List Char) : List Char :=
  if isPrefixCI suf.reverse s.reverse then s.take (s.length - suf.length) else s

/-- Triple-backtick fence marker. -/
def fenceMarker : List Char := [backtickChar, backtickChar, backtickChar]

/-- Leading fence pattern of the first replace in the cleanup chain. -/
def mdFencePrefix : List Char := fenceMarker ++ "markdown\n".toList

/-- Leading fence pattern of the second replace in the cleanup chain. -/
def bareFencePrefix : List Char := fenceMarker ++ ['\n']

/-- Trailing fence pattern of the third replace in the cleanup chain. -/
def fenceSuffix : List Char := '\n' :: fenceMarker

/-- JavaScript String.trim over the modelled whitespace set. -/
def trimJs (s : List Char) : List Char :=
  ((s.dropWhile jsWhitespace).reverse.dropWhile jsWhitespace).reverse

/-- Cleanup chain applied to a generated document in both entry points of the
source: strip one leading markdown fence line, then one leading bare fence
line, then one trailing fence line, then trim. -/
def cleanupMarkdown (s : List Char) : List Char :=
  trimJs (stripTrailCI fenceSuffix (stripLeadCI bareFencePrefix (stripLeadCI mdFencePrefix s)))

-- Header matcher: a faithful implementation of counting the global multiline
-- matches of the source regex (one to three leading hash marks at a line
-- start, then one or more whitespace characters, then one or more
-- non-newline characters, then end of line), with the greedy backtracking
-- semantics of the JavaScript engine.

/-- Attempts the header pattern at the head of l, which is assumed to sit at a
line start; returns the rest of the input after the match end on success.
The hash run must have length one to three and be followed by whitespace.
The whitespace run may cross newlines; if a non-whitespace character follows
it, the match extends to the end of that line, and otherwise the engine
backtracks so that the final whitespace character, when it is not a newline
and not the first whitespace character, is consumed as the text part. -/
def tryHeaderMatch (l : List Char) : Option (List Char) :=
  let hashes := l.takeWhile (· == '#')
  if hashes.length = 0 ∨ 3 < hashes.length then none
  else
    let t := l.dropWhile (· == '#')
    let w := t.takeWhile jsWhitespace
    let u := t.dropWhile jsWhitespace
    if w.isEmpty then none
    else if u.isEmpty then
      let trail := (w.reverse.takeWhile (· == '\n')).length
      if trail + 2 ≤ w.length then some (List.replicate trail '\n') else none
    else
      some (u.dropWhile (· != '\n'))

/-- Scans the input left to right, counting non-overlapping header matches at
line-start positions; the flag records whether the current position is a line
start. Every step consumes at least one character, so the fuel argument is
never exhausted when it starts above the input length. -/
def scanHeaders : Nat → List Char → Bool → Nat
  | 0, _, _ => 0
  | _ + 1, [], _ => 0
  | fuel + 1, c :: rest, atLineStart =>
    if atLineStart then
      match tryHeaderMatch (c :: rest) with
      | some remaining => 1 + scanHeaders fuel remaining false
      | none => scanHeaders fuel rest (c == '\n')
    else
      scanHeaders fuel rest (c == '\n')

/-- Number of global multiline matches of the header regex in the document. -/
def countHeaderMatches (s : List Char) : Nat :=
  scanHeaders (s.length + 1) s true

/-- Number of non-overlapping occurrences of the triple-backtick fence marker,
as counted by the global fence regex of the source. -/
def fenceCount : List Char → Nat
  | c1 :: c2 :: c3 :: rest =>
    if c1 == backtickChar && c2 == backtickChar && c3 == backtickChar then
      1 + fenceCount rest
    else
      fenceCount (c2 :: c3 :: rest)
  | _ => 0

/-- Banned meta-commentary phrases of the source regex, already lower-cased. -/
def metaPhrases : List (List Char) :=
  ["here is".toList, "i have generated".toList,
   ['i', apostropheChar] ++ "ve created".toList, "below is".toList]

/-- Case-insensitive test for a banned phrase within the first five hundred
characters of the document. -/
def metaCommentaryDetected (markdown : List Char) : Bool :=
  let window := (markdown.take 500).map jsToLower
  metaPhrases.any (fun p => containsSub p window)

/-- Result of structural validation: the flag and the accumulated problem
messages, in check order. -/
structure ValidationResult where
  valid : Bool
  errors : List (List Char)
deriving DecidableEq

/-- Message pushed when the document is shorter than two hundred characters. -/
def tooShortError : List Char :=
  "README is too short (less than 200 characters)".toList

/-- Message pushed when fewer than two header matches are found. -/
def missingHeadersError : List Char :=
  "Missing essential section headers".toList

/-- Message pushed when the fence marker count is odd. -/
def unclosedFenceError : List Char :=
  "Unclosed code block detected".toList

/-- Message pushed when a banned phrase occurs in the leading window. -/
def metaCommentaryError : List Char :=
  "AI meta-commentary detected in output".toList

/-- Structural validation of a candidate document, accumulating every failed
check in order and never failing itself. -/
def validateReadmeOutput (markdown : List Char) : ValidationResult :=
  let e1 := if markdown.length < 200 then [tooShortError] else []
  let e2 := if countHeaderMatches markdown < 2 then [missingHeadersError] else []
  let e3 := if fenceCount markdown % 2 ≠ 0 then [unclosedFenceError] else []
  let e4 := if metaCommentaryDetected markdown then [metaCommentaryError] else []
  let errors := e1 ++ e2 ++ e3 ++ e4
  { valid := errors.isEmpty, errors := errors }

-- Prompt builder.

/-- Fixed base instruction of the prompt builder, copied from the source
template literal (including the trailing space on its first line). -/
def basePrompt : List Char := String.toList
"You are a Senior Principal Engineer at a top-tier tech firm (like Vercel or Stripe). \nYour goal is to generate an ELITE, industry-standard README.md.\n\nSTYLE GUIDELINES:\n- Use modern SVG icons (e.g., skill-icons or simple icons) for the Tech Stack.\n- Include professional Shields.io badges (Stars, Forks, License, Version).\n- Structure with deep hierarchy: Features (with emojis), Roadmap, Architecture (Mermaid), and Detailed Installation.\n- Create a \"Quick Start\" vs \"Full Documentation\" section.\n- Use clean Markdown tables for API documentation or Config options.\n- Ensure any code blocks are accurately syntax-highlighted.\n- NEVER include meta-talk like \"Here is your readme\". ONLY output the raw markdown."

/-- Style selector of the configuration object. -/
inductive ReadmeStyle
  | minimal
  | standard
  | enterprise
deriving DecidableEq

/-- Configuration object of the pipeline; absent optional fields are none, and
absent boolean flags are false, matching falsiness of an absent field. -/
structure ReadmeConfig where
  style : Option ReadmeStyle := none
  includeArchitecture : Bool := false
  includeSecurity : Bool := false
  includeContributing : Bool := false
  model : Option (List Char) := none
  temperature : Option ℚ := none
  streaming : Bool := false
deriving DecidableEq

/-- Style-specific addition appended to the base prompt. -/
def styleAddition : ReadmeStyle → List Char
  | .minimal => "\n- Keep it concise: 5-7 sections max, focus on Quick Start.".toList
  | .standard => "\n- Balance detail with readability: Include all essential sections.".toList
  | .enterprise => "\n- Maximum detail: Architecture diagrams, security policies, CI/CD, deployment guides, monitoring setup.".toList

/-- Clause appended when the architecture flag is set. -/
def architectureClause : List Char :=
"\n- MUST include a Mermaid architecture diagram showing system components.".toList

/-- Clause appended when the security flag is set. -/
def securityClause : List Char :=
"\n- MUST include a Security section with vulnerability reporting and best practices.".toList

/-- Clause appended when the contributing flag is set. -/
def contributingClause : List Char :=
"\n- MUST include detailed Contributing guidelines with PR process and code standards.".toList

/-- Prompt builder: the base prompt, then the style addition (standard when no
style is configured), then the three optional clauses appended in the fixed
source order by sequential conditional concatenation. -/
def buildSystemPrompt (config : ReadmeConfig) : List Char :=
  let enhancedPrompt := basePrompt ++ styleAddition (config.style.getD ReadmeStyle.standard)
  let enhancedPrompt :=
    if config.includeArchitecture then enhancedPrompt ++ architectureClause else enhancedPrompt
  let enhancedPrompt :=
    if config.includeSecurity then enhancedPrompt ++ securityClause else enhancedPrompt
  let enhancedPrompt :=
    if config.includeContributing then enhancedPrompt ++ contributingClause else enhancedPrompt
  enhancedPrompt

-- Error model.

/-- Error codes of the custom error class. -/
inductive ErrorCode
  | AUTH_ERROR
  | RATE_LIMIT
  | NETWORK_ERROR
  | INVALID_OUTPUT
  | UNKNOWN
deriving DecidableEq

/-- Raw error value thrown by the provider call: its message text and an
optional error code field inspected by the connection-refused check. -/
structure RawError where
  message : List Char
  code : Option (List Char) := none
deriving DecidableEq

/-- Structured error payload reported by a resolved provider response; the
source only ever serializes it, so it is modelled by its serialization. -/
structure ErrorPayload where
  serialized : List Char
deriving DecidableEq

/-- Original error wrapped into a classified error. -/
inductive ErrorCause
  | fromThrow (e : RawError)
  | fromPayload (p : ErrorPayload)
deriving DecidableEq

/-- Custom error class of the source: message, code tag, retryable flag and
the optional wrapped original error. -/
structure ReadmeGenerationError where
  message : List Char
  code : ErrorCode
  retryable : Bool
  originalError : Option ErrorCause := none
deriving DecidableEq

/-- Every value an entry point can fail with: a classified generation error,
or a raw provider error propagated without classification. -/
inductive SurfacedError
  | raw (e : RawError)
  | classified (g : ReadmeGenerationError)
deriving DecidableEq

/-- Error thrown when the credential is absent from the environment. -/
def missingKeyError : ReadmeGenerationError :=
  { message := "Missing BYTEZ_API_KEY in environment variables".toList,
    code := .AUTH_ERROR, retryable := false }

/-- Classification of a thrown provider error by case-sensitive message
content, as in the catch block of the streaming entry point. -/
def classifyThrownError (err : RawError) : ReadmeGenerationError :=
  if containsSub "rate limit".toList err.message then
    { message := "API rate limit exceeded. Please try again later.".toList,
      code := .RATE_LIMIT, retryable := true, originalError := some (.fromThrow err) }
  else if containsSub "authentication".toList err.message
      || containsSub "API key".toList err.message then
    { message := "Invalid API key or authentication failed".toList,
      code := .AUTH_ERROR, retryable := false, originalError := some (.fromThrow err) }
  else if containsSub "network".toList err.message
      || err.code == some "ECONNREFUSED".toList then
    { message := "Network error occurred. Check your connection.".toList,
      code := .NETWORK_ERROR, retryable := true, originalError := some (.fromThrow err) }
  else
    { message := "README generation failed: ".toList ++ err.message,
      code := .UNKNOWN, retryable := false, originalError := some (.fromThrow err) }

/-- Error thrown when a resolved provider response carries an error payload. -/
def bytezApiError (p : ErrorPayload) : ReadmeGenerationError :=
  { message := "Bytez API Error: ".toList ++ p.serialized,
    code := .UNKNOWN, retryable := true, originalError := some (.fromPayload p) }

/-- Error thrown when the validated document fails validation in the
non-streaming entry point. -/
def invalidOutputError (problems : List (List Char)) : ReadmeGenerationError :=
  { message := "Generated README failed validation: ".toList
      ++ List.intercalate ", ".toList problems,
    code := .INVALID_OUTPUT, retryable := true }

/-- Defensive terminal error of the fallback orchestrator. -/
def allModelsFailedError : ReadmeGenerationError :=
  { message := "All fallback models failed".toList, code := .UNKNOWN, retryable := false }

/-- True unless the failure is a raw error that escaped classification. -/
def isClassifiedResult : Except SurfacedError α → Bool
  | .error (.raw _) => false
  | _ => true

-- Backoff scheduler.

/-- Observable outcome of a backoff-wrapped operation: the final result, the
number of operation invocations, and the delays slept before each retry, in
order. Delays are exact rationals. -/
structure BackoffResult (ε α : Type) where
  result : Except ε α
  calls : Nat
  delays : List ℚ
deriving DecidableEq

/-- Retry loop of the scheduler. The operation is indexed by the zero-based
attempt counter; remaining counts the retries still allowed, so it equals
maxRetries minus attempt along the run. The jitter draw models one uniform
sample from the interval from zero up to but excluding one per retry. -/
def backoffSteps (operation : Nat → Except ε α) (baseDelay : ℚ) (jitterDraw : Nat → ℚ) :
    Nat → Nat → BackoffResult ε α
  | attempt, 0 =>
    match operation attempt with
    | .ok a => { result := .ok a, calls := 1, delays := [] }
    | .error e => { result := .error e, calls := 1, delays := [] }
  | attempt, remaining + 1 =>
    match operation attempt with
    | .ok a => { result := .ok a, calls := 1, delays := [] }
    | .error _ =>
      let exponentialDelay := baseDelay * 2 ^ attempt
      let jitter := jitterDraw attempt * exponentialDelay * (3 / 10)
      let rest := backoffSteps operation baseDelay jitterDraw (attempt + 1) remaining
      { result := rest.result, calls := rest.calls + 1,
        delays := (exponentialDelay + jitter) :: rest.delays }

/-- Generic retry primitive of the source: run the operation, and on failure
with the attempt counter at or above maxRetries propagate the error, else
sleep the exponential delay with jitter and retry. -/
def withExponentialBackoff (operation : Nat → Except ε α) (maxRetries : Nat)
    (baseDelay : ℚ) (jitterDraw : Nat → ℚ) : BackoffResult ε α :=
  backoffSteps operation baseDelay jitterDraw 0 maxRetries

-- Provider response model and normalization.

/-- Features of a provider response object inspected by the non-streaming
normalization: the content field when present, the nested message content of
the first choice when the whole path is present, and the serialization of the
whole object. -/
structure ObjectPayload where
  content : Option (List Char) := none
  choicesContent : Option (List Char) := none
  serialized : List Char := []
deriving DecidableEq

/-- Output value of a resolved non-streaming provider call: a plain string,
an object, or any other value (which the source leaves unconsumed). -/
inductive OutputPayload
  | strPayload (s : List Char)
  | objPayload (o : ObjectPayload)
  | otherPayload
deriving DecidableEq

/-- Fallthrough of normalization past the content field: a truthy nested
choices content, else the serialized object. -/
def choicesOrSerialized (o : ObjectPayload) : List Char :=
  match o.choicesContent with
  | some cc => if cc.isEmpty then o.serialized else cc
  | none => o.serialized

/-- Normalization of the resolved output in the non-streaming entry point.
A field is used exactly when it is truthy, so a present but empty content
field falls through, and a non-string non-object payload leaves the document
empty. -/
def normalizeOutput : OutputPayload → List Char
  | .strPayload s => s
  | .objPayload o =>
    match o.content with
    | some c => if c.isEmpty then choicesOrSerialized o else c
    | none => choicesOrSerialized o
  | .otherPayload => []

/-- Resolved value of the non-streaming provider call: the optional error
payload and the output. -/
structure RunResult where
  error : Option ErrorPayload := none
  output : OutputPayload := .otherPayload
deriving DecidableEq

/-- Outcome of one non-streaming provider call: the promise either rejects
with a raw error or resolves to a run result. -/
inductive RunOutcome
  | threw (e : RawError)
  | returned (r : RunResult)
deriving DecidableEq

-- Non-streaming entry point.

/-- Operation closure passed to the backoff scheduler by the non-streaming
entry point: resolve the credential inside the wrapper, call the provider,
wrap a reported error payload, normalize, clean up and validate. A raw
rejection of the provider call is not caught anywhere in this closure and
propagates as such. -/
def generateReadmeAttempt (apiKey : Option (List Char)) (outcome : RunOutcome) :
    Except SurfacedError (List Char) :=
  match apiKey with
  | none => .error (.classified missingKeyError)
  | some _ =>
    match outcome with
    | .threw e => .error (.raw e)
    | .returned r =>
      match r.error with
      | some p => .error (.classified (bytezApiError p))
      | none =>
        let finalMarkdown := cleanupMarkdown (normalizeOutput r.output)
        let validation := validateReadmeOutput finalMarkdown
        if validation.valid then .ok finalMarkdown
        else .error (.classified (invalidOutputError validation.errors))

/-- Non-streaming entry point: the attempt closure wrapped in the backoff
scheduler with three retries and a base delay of one thousand milliseconds.
The provider call of attempt n is abstracted by the outcome function runs. -/
def generateReadme (apiKey : Option (List Char)) (config : ReadmeConfig)
    (runs : Nat → RunOutcome) (jitterDraw : Nat → ℚ) : BackoffResult SurfacedError (List Char) :=
  withExponentialBackoff (fun attempt => generateReadmeAttempt apiKey (runs attempt))
    3 1000 jitterDraw

-- Streaming entry point.

/-- Options carried by the streaming provider call. -/
structure RunOptions where
  modelName : List Char
  stream : Bool
  temperature : ℚ
deriving DecidableEq

/-- Default model identifier substituted for an absent model field. -/
def defaultModelName : List Char := "openai/gpt-4o".toList

/-- Temperature passed to the provider: the configured value unless it is
absent or zero (both falsy), in which case the default applies. -/
def effectiveTemperature : Option ℚ → ℚ
  | none => 7 / 10
  | some t => if t = 0 then 7 / 10 else t

/-- Shapes of a resolved streaming provider response distinguished by the
source: an asynchronous sequence of fragments, a plain string, an object with
a content field, and anything else (left unconsumed). -/
inductive StreamResponse
  | streamed (chunks : List (List Char))
  | plain (s : List Char)
  | withContent (content : List Char)
  | unrecognized
deriving DecidableEq

/-- Observable outcome of the streaming entry point: the result, the ordered
list of arguments passed to the chunk callback, and the options of the
provider call when one was issued. -/
structure StreamingOutcome where
  result : Except SurfacedError (List Char)
  chunkCalls : List (List Char)
  callIssued : Option RunOptions
deriving DecidableEq

/-- Streaming entry point: credential check before anything else and with no
backoff wrapper, one streaming provider call, per-fragment accumulation with
a synchronous chunk callback per fragment in arrival order, cleanup, and
validation whose failure is only logged, never thrown. A thrown provider
error is classified in the catch block, so every failure is classified. -/
def generateReadmeStreaming (apiKey : Option (List Char)) (config : ReadmeConfig)
    (response : Except RawError StreamResponse) : StreamingOutcome :=
  match apiKey with
  | none =>
    { result := .error (.classified missingKeyError), chunkCalls := [], callIssued := none }
  | some _ =>
    let options : RunOptions :=
      { modelName := config.model.getD defaultModelName, stream := true,
        temperature := effectiveTemperature config.temperature }
    match response with
    | .error err =>
      { result := .error (.classified (classifyThrownError err)),
        chunkCalls := [], callIssued := some options }
    | .ok r =>
      let accumulated : List Char × List (List Char) :=
        match r with
        | .streamed chunks => (chunks.foldl (· ++ ·) [], chunks)
        | .plain s => (s, [s])
        | .withContent c => (c, [c])
        | .unrecognized => ([], [])
      { result := .ok (cleanupMarkdown accumulated.1), chunkCalls := accumulated.2,
        callIssued := some options }

-- Fallback orchestrator.

/-- Retryable flag read off a surfaced error by the orchestrator; reading the
field off a raw error yields an absent value, which is falsy in the source. -/
def surfacedRetryable : SurfacedError → Bool
  | .raw _ => false
  | .classified g => g.retryable

/-- Loop of the orchestrator over the candidate list: return on the first
success, propagate a failure when its retryable flag is falsy or the current
candidate equals the last element of the full list, and otherwise continue
with the next candidate. An exhausted list yields the defensive terminal
error. -/
def fallbackGo (attempt : List Char → Except SurfacedError (List Char)) (lastModel : List Char) :
    List (List Char) → Except SurfacedError (List Char × List Char)
  | [] => .error (.classified allModelsFailedError)
  | m :: rest =>
    match attempt m with
    | .ok markdown => .ok (markdown, m)
    | .error err =>
      if surfacedRetryable err = false ∨ m = lastModel then .error err
      else fallbackGo attempt lastModel rest

/-- Orchestrator loop over a candidate list, with the last element of that
list as the stopping sentinel, exactly as the source compares against the
final index of its model array. -/
def fallbackRun (attempt : List Char → Except SurfacedError (List Char))
    (models : List (List Char)) : Except SurfacedError (List Char × List Char) :=
  fallbackGo attempt (models.getLastD []) models

/-- Fixed candidate list of the source, strongest first. -/
def fallbackModels : List (List Char) :=
  ["openai/gpt-4o".toList, "openai/gpt-4-turbo".toList,
   "anthropic/claude-3-5-sonnet-20241022".toList, "openai/gpt-3.5-turbo".toList]

/-- Multi-model entry point: run the non-streaming entry point for each
candidate in order with the model substituted into the configuration, under
the orchestrator loop. The provider is abstracted per model and attempt. -/
def generateReadmeWithFallback (apiKey : Option (List Char)) (config : ReadmeConfig)
    (runs : List Char → Nat → RunOutcome) (jitterDraw : List Char → Nat → ℚ) :
    Except SurfacedError (List Char × List Char) :=
  fallbackRun
    (fun model =>
      (generateReadme apiKey { config with model := some model } (runs model)
        (jitterDraw model)).result)
    fallbackModels

-- Expected-value helpers used to state and prove properties of the above.

/-- Delay slept before the retry following the failed zero-indexed attempt n:
the exponential delay plus the jitter drawn for that attempt. -/
def delayTerm (baseDelay : ℚ) (jitterDraw : Nat → ℚ) (n : Nat) : ℚ :=
  baseDelay * 2 ^ n + jitterDraw n * (baseDelay * 2 ^ n) * (3 / 10)

/-- Delays produced by a run of the scheduler that starts at the given
attempt with the given number of retries remaining and fails throughout. -/
def expectedDelays (baseDelay : ℚ) (jitterDraw : Nat → ℚ) : Nat → Nat → List ℚ
  | _, 0 => []
  | attempt, r + 1 =>
    delayTerm baseDelay jitterDraw attempt :: expectedDelays baseDelay jitterDraw (attempt + 1) r

/-- Concrete document that passes every validation check: two header lines
followed by two hundred filler characters, no fences, no banned phrase. -/
def goodDoc : List Char := "# A\n## B\n".toList ++ List.replicate 200 'a'

end ReadmeGen

namespace ReadmeGen

-- Lemmas about the backoff scheduler.

/-- Characterization of a scheduler run whose operation fails at every
attempt: it propagates the error of the final attempt, performs one more
invocation than it has retries remaining, and sleeps exactly the expected
delays. -/
theorem backoffSteps_allFail (operation : Nat → Except ε α) (baseDelay : ℚ)
    (jitterDraw : Nat → ℚ) (e : Nat → ε) (hop : ∀ n, operation n = .error (e n)) :
    ∀ remaining attempt,
      backoffSteps operation baseDelay jitterDraw attempt remaining
        = { result := .error (e (attempt + remaining)), calls := remaining + 1,
            delays := expectedDelays baseDelay jitterDraw attempt remaining } := by
  intro remaining
  induction remaining with
  | zero =>
    intro attempt
    simp [backoffSteps, hop attempt, expectedDelays]
  | succ r ih =>
    intro attempt
    have harith : attempt + (r + 1) = attempt + 1 + r := by omega
    simp [backoffSteps, hop attempt, expectedDelays, ih (attempt + 1), delayTerm, harith]

/-- Length of the expected delay list. -/
theorem expectedDelays_length (baseDelay : ℚ) (jitterDraw : Nat → ℚ) :
    ∀ r attempt, (expectedDelays baseDelay jitterDraw attempt r).length = r := by
  intro r
  induction r with
  | zero => intro attempt; rfl
  | succ n ih => intro attempt; simp [expectedDelays, ih (attempt + 1)]

/-- Element of the expected delay list at a retry index within range. -/
theorem expectedDelays_getD (baseDelay : ℚ) (jitterDraw : Nat → ℚ) :
    ∀ r attempt n, n < r →
      (expectedDelays baseDelay jitterDraw attempt r).getD n 0
        = delayTerm baseDelay jitterDraw (attempt + n) := by
  intro r
  induction r with
  | zero => intro attempt n h; omega
  | succ rr ih =>
    intro attempt n h
    cases n with
    | zero => simp [expectedDelays]
    | succ m =>
      simp only [expectedDelays, List.getD_cons_succ]
      rw [ih (attempt + 1) m (by omega)]
      congr 1
      omega

/-- Result of any scheduler run is the result of one of the operation
invocations. -/
theorem backoffSteps_result_is_op (operation : Nat → Except ε α) (baseDelay : ℚ)
    (jitterDraw : Nat → ℚ) :
    ∀ remaining attempt,
      ∃ k, (backoffSteps operation baseDelay jitterDraw attempt remaining).result
        = operation k := by
  intro remaining
  induction remaining with
  | zero =>
    intro attempt
    cases h : operation attempt with
    | ok a => exact ⟨attempt, by simp [backoffSteps, h]⟩
    | error e => exact ⟨attempt, by simp [backoffSteps, h]⟩
  | succ r ih =>
    intro attempt
    cases h : operation attempt with
    | ok a => exact ⟨attempt, by simp [backoffSteps, h]⟩
    | error e =>
      obtain ⟨k, hk⟩ := ih (attempt + 1)
      exact ⟨k, by simp [backoffSteps, h, hk]⟩

/-- Every outcome of the non-streaming attempt closure on a resolved provider
call is classified: only a rejected provider promise can produce a raw
surfaced error. -/
theorem returned_attempt_classified (apiKey : Option (List Char)) (r : RunResult) :
    isClassifiedResult (generateReadmeAttempt apiKey (.returned r)) = true := by
  cases apiKey with
  | none => rfl
  | some k =>
    cases h : r.error with
    | some p => simp [generateReadmeAttempt, h, isClassifiedResult]
    | none =>
      simp only [generateReadmeAttempt, h]
      split <;> rfl

end ReadmeGen

namespace ReadmeGen

/-- Claim C5: for every operation, maxRetries and positive baseDelay, if the
operation always fails then the scheduler invokes it exactly maxRetries plus
one times, propagates the error of the last invocation with no further delay (the
delay list has exactly maxRetries entries, one per retry), and the delay
slept before the retry of zero-indexed attempt n lies in the half-open
interval from baseDelay times two to the n up to but excluding thirteen
tenths of that value, given that each jitter draw lies in the unit
half-open interval. -/
theorem backoff_exhaustion_and_delay_bounds (operation : Nat → Except ε α)
    (maxRetries : Nat) (baseDelay : ℚ) (jitterDraw : Nat → ℚ) (e : Nat → ε)
    (hop : ∀ n, operation n = .error (e n)) (hbase : 0 < baseDelay)
    (hjlo : ∀ n, 0 ≤ jitterDraw n) (hjhi : ∀ n, jitterDraw n < 1) :
    (withExponentialBackoff operation maxRetries baseDelay jitterDraw).calls = maxRetries + 1 ∧
    (withExponentialBackoff operation maxRetries baseDelay jitterDraw).result
      = .error (e maxRetries) ∧
    (withExponentialBackoff operation maxRetries baseDelay jitterDraw).delays.length
      = maxRetries ∧
    ∀ n, n < maxRetries →
      baseDelay * 2 ^ n
          ≤ (withExponentialBackoff operation maxRetries baseDelay jitterDraw).delays.getD n 0 ∧
      (withExponentialBackoff operation maxRetries baseDelay jitterDraw).delays.getD n 0
          < baseDelay * 2 ^ n * (13 / 10) := by
  have hres : withExponentialBackoff operation maxRetries baseDelay jitterDraw
      = { result := .error (e (0 + maxRetries)), calls := maxRetries + 1,
          delays := expectedDelays baseDelay jitterDraw 0 maxRetries } :=
    backoffSteps_allFail operation baseDelay jitterDraw e hop maxRetries 0
  rw [hres]
  refine ⟨rfl, by rw [Nat.zero_add], expectedDelays_length baseDelay jitterDraw maxRetries 0, ?_⟩
  intro n hn
  have hd := expectedDelays_getD baseDelay jitterDraw maxRetries 0 n hn
  rw [Nat.zero_add] at hd
  dsimp only
  rw [hd]
  have ha : (0 : ℚ) < baseDelay * 2 ^ n := by positivity
  constructor
  · have hj : (0 : ℚ) ≤ jitterDraw n * (baseDelay * 2 ^ n) * (3 / 10) := by
      have := mul_nonneg (mul_nonneg (hjlo n) ha.le) (by norm_num : (0:ℚ) ≤ 3 / 10)
      simpa [mul_assoc] using this
    simp only [delayTerm]
    linarith
  · have h1 : jitterDraw n * (baseDelay * 2 ^ n) < baseDelay * 2 ^ n := by
      have := mul_lt_mul_of_pos_right (hjhi n) ha
      simpa using this
    have h2 : jitterDraw n * (baseDelay * 2 ^ n) * (3 / 10)
        < baseDelay * 2 ^ n * (3 / 10) :=
      mul_lt_mul_of_pos_right h1 (by norm_num)
    simp only [delayTerm]
    linarith

/-- Witness for claim C5 at a concrete instance: an always-failing operation
with three retries, base delay one thousand and constant jitter one half. -/
theorem backoff_exhaustion_witness :
    (0 : ℚ) < 1000 ∧
    (withExponentialBackoff (fun n => (Except.error n : Except Nat Nat)) 3 1000
        (fun _ => 1 / 2)).calls = 4 ∧
    (withExponentialBackoff (fun n => (Except.error n : Except Nat Nat)) 3 1000
        (fun _ => 1 / 2)).result = .error 3 ∧
    (withExponentialBackoff (fun n => (Except.error n : Except Nat Nat)) 3 1000
        (fun _ => 1 / 2)).delays.length = 3 := by
  have h := backoff_exhaustion_and_delay_bounds
    (fun n => (Except.error n : Except Nat Nat)) 3 1000 (fun _ => 1 / 2) (fun n => n)
    (fun _ => rfl) (by norm_num) (fun _ => by norm_num) (fun _ => by norm_num)
  exact ⟨by norm_num, h.1, h.2.1, h.2.2.1⟩

/-- Claim C1, amended: with the credential absent, the non-streaming entry
point does fail with the non-retryable missing-key authentication error, but
the check sits inside the retry wrapper, so the backoff scheduler invokes
the attempt four times and three backoff delays elapse before the error
propagates. -/
theorem missing_credential_fails_after_backoff :
    ∀ (config : ReadmeConfig) (runs : Nat → RunOutcome) (jitterDraw : Nat → ℚ),
      (generateReadme none config runs jitterDraw).result
        = .error (.classified missingKeyError) ∧
      (generateReadme none config runs jitterDraw).calls = 4 ∧
      (generateReadme none config runs jitterDraw).delays.length = 3 := by
  intro config runs jitterDraw
  have hres : generateReadme none config runs jitterDraw
      = { result := .error (.classified missingKeyError), calls := 3 + 1,
          delays := expectedDelays 1000 jitterDraw 0 3 } :=
    backoffSteps_allFail (fun attempt => generateReadmeAttempt none (runs attempt))
      1000 jitterDraw (fun _ => .classified missingKeyError) (fun _ => rfl) 3 0
  rw [hres]
  exact ⟨rfl, rfl, expectedDelays_length 1000 jitterDraw 3 0⟩

/-- Counterexample to claim C1 as stated: at a concrete input with the
credential absent, the scheduler is invoked (four operation calls) and
delays are observed (a non-empty delay list), though the surfaced error is
the missing-key authentication error. The claim predicted one invocation
and no delay. -/
theorem missing_credential_delay_observed :
    (generateReadme none {} (fun _ => .returned {}) (fun _ => 0)).calls = 4 ∧
    (generateReadme none {} (fun _ => .returned {}) (fun _ => 0)).delays ≠ [] ∧
    (generateReadme none {} (fun _ => .returned {}) (fun _ => 0)).result
      = .error (.classified missingKeyError) := by
  exact ⟨by decide, by decide, by decide⟩

/-- Claim C2, amended: every failure surfaced by the streaming entry point is
a classified generation error, and the non-streaming entry point surfaces
only classified errors whenever every provider call resolves (to any result,
error payload or output); however a rejected provider promise escapes the
non-streaming entry point unclassified. -/
theorem failures_classified_without_raw_throw :
    (∀ (apiKey : Option (List Char)) (config : ReadmeConfig)
        (response : Except RawError StreamResponse),
      isClassifiedResult (generateReadmeStreaming apiKey config response).result = true) ∧
    (∀ (apiKey : Option (List Char)) (config : ReadmeConfig)
        (results : Nat → RunResult) (jitterDraw : Nat → ℚ),
      isClassifiedResult
        (generateReadme apiKey config (fun n => .returned (results n)) jitterDraw).result
        = true) := by
  constructor
  · intro apiKey config response
    cases apiKey with
    | none => rfl
    | some k =>
      cases response with
      | error err => rfl
      | ok r => cases r <;> rfl
  · intro apiKey config results jitterDraw
    obtain ⟨k, hk⟩ := backoffSteps_result_is_op
      (fun n => generateReadmeAttempt apiKey (.returned (results n))) 1000 jitterDraw 3 0
    simp only [generateReadme, withExponentialBackoff]
    rw [hk]
    exact returned_attempt_classified apiKey (results k)

/-- Counterexample to claim C2 as stated: at a concrete input whose provider
call rejects with a raw error, the non-streaming entry point surfaces that
raw error itself, not a generation error with a kind and retryable flag. -/
theorem raw_provider_error_escapes :
    (generateReadme (some "k".toList) {} (fun _ => .threw { message := "boom".toList })
        (fun _ => 0)).result
      = .error (.raw { message := "boom".toList }) ∧
    isClassifiedResult
      (generateReadme (some "k".toList) {} (fun _ => .threw { message := "boom".toList })
        (fun _ => 0)).result = false := by
  exact ⟨by decide, by decide⟩

-- Lemmas about list last elements, used by the orchestrator proofs.

/-- Default irrelevance of getLastD on a non-empty list. -/
theorem getLastD_irrel (l : List α) (h : l ≠ []) (d d' : α) :
    l.getLastD d = l.getLastD d' := by
  cases l with
  | nil => exact absurd rfl h
  | cons a t => rw [List.getLastD_cons, List.getLastD_cons]

/-- Membership of getLastD on a non-empty list. -/
theorem getLastD_mem (l : List α) (h : l ≠ []) (d : α) : l.getLastD d ∈ l := by
  induction l generalizing d with
  | nil => exact absurd rfl h
  | cons a t ih =>
    rw [List.getLastD_cons]
    cases t with
    | nil => simp
    | cons b t2 => exact List.mem_cons_of_mem a (ih (by simp) a)

/-- Claim C3: over any duplicate-free ordered candidate list, decomposed as a
prefix, a distinguished candidate and a suffix, with every prefix candidate
failing with a retryable error: if the distinguished candidate succeeds, the
orchestrator returns its document paired with its identifier, and the result
is unchanged under any reinterpretation of the later candidates (they are
never invoked); if it fails, the error propagates immediately exactly when
it is non-retryable or the candidate is the last of the list, and otherwise
the orchestrator continues with the remaining candidates. -/
theorem fallback_orchestrator_ordered_behavior :
    ∀ (pre suf : List (List Char)) (m : List Char)
      (attempt : List Char → Except SurfacedError (List Char)),
      (pre ++ m :: suf).Nodup →
      (∀ p ∈ pre, ∃ err, attempt p = .error err ∧ surfacedRetryable err = true) →
      ((∀ doc, attempt m = .ok doc →
          fallbackRun attempt (pre ++ m :: suf) = .ok (doc, m) ∧
          ∀ attempt2 : List Char → Except SurfacedError (List Char),
            (∀ p ∈ pre, attempt2 p = attempt p) → attempt2 m = attempt m →
            fallbackRun attempt2 (pre ++ m :: suf) = .ok (doc, m)) ∧
       (∀ err, attempt m = .error err →
          ((surfacedRetryable err = false ∨ suf = []) →
            fallbackRun attempt (pre ++ m :: suf) = .error err) ∧
          (surfacedRetryable err = true → suf ≠ [] →
            fallbackRun attempt (pre ++ m :: suf)
              = fallbackGo attempt ((pre ++ m :: suf).getLastD []) suf))) := by
  intro pre
  induction pre with
  | nil =>
    intro suf m attempt hnd hpre
    simp only [List.nil_append] at hnd ⊢
    have hconslast : (m :: suf).getLastD ([] : List Char) = suf.getLastD m :=
      List.getLastD_cons [] m suf
    constructor
    · intro doc hdoc
      constructor
      · simp only [fallbackRun, fallbackGo, hdoc]
      · intro attempt2 _ h2
        simp only [fallbackRun, fallbackGo, h2, hdoc]
    · intro err herr
      have hmain : fallbackRun attempt (m :: suf)
          = if surfacedRetryable err = false ∨ m = (m :: suf).getLastD [] then
              Except.error err
            else fallbackGo attempt ((m :: suf).getLastD []) suf := by
        simp only [fallbackRun, fallbackGo, herr]
      constructor
      · intro hcond
        have hcondpos : surfacedRetryable err = false ∨ m = (m :: suf).getLastD [] := by
          rcases hcond with hfalse | hnil
          · exact Or.inl hfalse
          · subst hnil
            exact Or.inr (by rw [hconslast]; rfl)
        rw [hmain, if_pos hcondpos]
      · intro hretry hsuf
        have hm : m ∉ suf := (List.nodup_cons.mp hnd).1
        have hne : m ≠ suf.getLastD m := fun h => hm (h ▸ getLastD_mem suf hsuf m)
        rw [hmain, if_neg]
        rintro (hfalse | hlast)
        · rw [hretry] at hfalse
          exact Bool.noConfusion hfalse
        · rw [hconslast] at hlast
          exact hne hlast
  | cons p pre2 ih =>
    intro suf m attempt hnd hpre
    simp only [List.cons_append] at hnd ⊢
    have hrestne : pre2 ++ m :: suf ≠ [] := by simp
    obtain ⟨ep, hep, hrp⟩ := hpre p (by simp)
    have hnd2 : (pre2 ++ m :: suf).Nodup := (List.nodup_cons.mp hnd).2
    have hpmem : p ∉ pre2 ++ m :: suf := (List.nodup_cons.mp hnd).1
    have hpre2 : ∀ q ∈ pre2, ∃ err, attempt q = .error err ∧ surfacedRetryable err = true := by
      intro q hq
      exact hpre q (by simp [hq])
    have hlasteq : (p :: (pre2 ++ m :: suf)).getLastD ([] : List Char)
        = (pre2 ++ m :: suf).getLastD [] := by
      rw [List.getLastD_cons]
      exact getLastD_irrel _ hrestne p []
    have hplast : p ≠ (pre2 ++ m :: suf).getLastD [] :=
      fun h => hpmem (h ▸ getLastD_mem _ hrestne [])
    have hstep : ∀ att : List Char → Except SurfacedError (List Char), att p = .error ep →
        fallbackRun att (p :: (pre2 ++ m :: suf)) = fallbackRun att (pre2 ++ m :: suf) := by
      intro att hatt
      simp only [fallbackRun]
      rw [hlasteq]
      simp only [fallbackGo, hatt]
      rw [if_neg]
      rintro (hfalse | hlast)
      · rw [hrp] at hfalse
        exact Bool.noConfusion hfalse
      · exact hplast hlast
    obtain ⟨ihok, iherr⟩ := ih suf m attempt hnd2 hpre2
    constructor
    · intro doc hdoc
      obtain ⟨hrun, hinv⟩ := ihok doc hdoc
      constructor
      · rw [hstep attempt hep]
        exact hrun
      · intro attempt2 hagree h2
        have hp2 : attempt2 p = .error ep := by rw [hagree p (by simp), hep]
        rw [hstep attempt2 hp2]
        exact hinv attempt2 (fun q hq => hagree q (by simp [hq])) h2
    · intro err herr
      obtain ⟨hprop, hcont⟩ := iherr err herr
      constructor
      · intro hcond
        rw [hstep attempt hep]
        exact hprop hcond
      · intro hretry hsuf
        rw [hstep attempt hep, hlasteq]
        exact hcont hretry hsuf

/-- Witness for claim C3 at a concrete instance over the fixed candidate list
of the source: the first candidate fails with a retryable error, the second
succeeds, and the orchestrator returns the document of the second candidate and
identifier. -/
theorem fallback_orchestrator_witness :
    (["openai/gpt-4o".toList] ++ "openai/gpt-4-turbo".toList
        :: ["anthropic/claude-3-5-sonnet-20241022".toList,
            "openai/gpt-3.5-turbo".toList]).Nodup ∧
    fallbackRun
      (fun mm =>
        if mm = "openai/gpt-4o".toList then
          .error (.classified (bytezApiError { serialized := "e".toList }))
        else .ok "doc".toList)
      (["openai/gpt-4o".toList] ++ "openai/gpt-4-turbo".toList
        :: ["anthropic/claude-3-5-sonnet-20241022".toList,
            "openai/gpt-3.5-turbo".toList])
      = .ok ("doc".toList, "openai/gpt-4-turbo".toList) := by
  refine ⟨by decide, ?_⟩
  have h := fallback_orchestrator_ordered_behavior
    ["openai/gpt-4o".toList]
    ["anthropic/claude-3-5-sonnet-20241022".toList, "openai/gpt-3.5-turbo".toList]
    "openai/gpt-4-turbo".toList
    (fun mm =>
      if mm = "openai/gpt-4o".toList then
        .error (.classified (bytezApiError { serialized := "e".toList }))
      else .ok "doc".toList)
    (by decide)
    (by
      intro q hq
      have hq1 : q = "openai/gpt-4o".toList := by simpa using hq
      subst hq1
      exact ⟨.classified (bytezApiError { serialized := "e".toList }), by decide, by decide⟩)
  exact (h.1 "doc".toList (by decide)).1

end ReadmeGen

namespace ReadmeGen

/-- Claim C4, amended: the cross-model decision of the orchestrator inspects only
the retryable flag of a failed per-model attempt, never its kind. An Unknown
failure propagates immediately when its flag is false, while an Unknown
failure with a true flag and a non-final candidate leads to the next
candidate; and the Unknown errors the non-streaming entry point produces
from provider-reported error payloads always carry a true retryable flag, so
the orchestrator does proceed past them. -/
theorem fallback_unknown_follows_retryable_flag
    (attempt : List Char → Except SurfacedError (List Char)) (lastModel m : List Char)
    (rest : List (List Char)) (g : ReadmeGenerationError)
    (hm : attempt m = .error (.classified g)) (hcode : g.code = .UNKNOWN) :
    (g.retryable = false →
      fallbackGo attempt lastModel (m :: rest) = .error (.classified g)) ∧
    (g.retryable = true → m ≠ lastModel →
      fallbackGo attempt lastModel (m :: rest) = fallbackGo attempt lastModel rest) ∧
    (∀ p : ErrorPayload,
      (bytezApiError p).code = .UNKNOWN ∧ (bytezApiError p).retryable = true) := by
  refine ⟨?_, ?_, fun p => ⟨rfl, rfl⟩⟩
  · intro hr
    simp only [fallbackGo, hm]
    rw [if_pos (Or.inl (by rw [show surfacedRetryable (.classified g) = g.retryable from rfl, hr]))]
  · intro hr hne
    simp only [fallbackGo, hm]
    rw [if_neg]
    rintro (hfalse | hlast)
    · rw [show surfacedRetryable (.classified g) = g.retryable from rfl, hr] at hfalse
      exact Bool.noConfusion hfalse
    · exact hne hlast

/-- Witness for claim C4 at a concrete instance: a per-model Unknown failure
with a true retryable flag on a non-final candidate makes the loop continue
with the remaining candidates. -/
theorem fallback_unknown_witness :
    (bytezApiError { serialized := "e".toList }).retryable = true ∧
    fallbackGo (fun _ => .error (.classified (bytezApiError { serialized := "e".toList })))
        "z".toList ("a".toList :: ["z".toList])
      = fallbackGo (fun _ => .error (.classified (bytezApiError { serialized := "e".toList })))
        "z".toList ["z".toList] := by
  have h := fallback_unknown_follows_retryable_flag
    (fun _ => .error (.classified (bytezApiError { serialized := "e".toList })))
    "z".toList "a".toList ["z".toList] (bytezApiError { serialized := "e".toList })
    rfl rfl
  exact ⟨rfl, h.2.1 rfl (by decide)⟩

set_option maxRecDepth 4000 in
/-- Counterexample to claim C4 as stated: at a concrete input the first
candidate attempt fails with an Unknown generation error (the wrapped
provider-reported payload, whose retryable flag is true), and the
orchestrator does not propagate it: it proceeds and returns the second
candidate document. The claim predicted immediate propagation with no
further candidate. -/
theorem fallback_unknown_retryable_proceeds :
    generateReadmeWithFallback (some "k".toList) {}
        (fun mm _ =>
          if mm = "openai/gpt-4o".toList then
            .returned { error := some { serialized := "boom".toList } }
          else .returned { error := none, output := .strPayload goodDoc })
        (fun _ _ => 0)
      = .ok (goodDoc, "openai/gpt-4-turbo".toList) ∧
    (generateReadme (some "k".toList) { model := some "openai/gpt-4o".toList }
        (fun _ => .returned { error := some { serialized := "boom".toList } })
        (fun _ => 0)).result
      = .error (.classified (bytezApiError { serialized := "boom".toList })) ∧
    (bytezApiError { serialized := "boom".toList }).code = .UNKNOWN := by
  exact ⟨by decide, by decide, rfl⟩

/-- Claim C6: validation never fails and accumulates every failed check
rather than short-circuiting: the flag holds exactly when the problem list
is empty, and each of the four problem messages occurs in the list exactly
when its check fails — document length at least two hundred, at least two
matches of the header pattern, an even fence-marker count, and no banned
phrase in the first five hundred characters. In particular any document
with an odd fence-marker count reports the unclosed-code-block problem
regardless of its other content. -/
theorem validate_accumulates_all_checks :
    ∀ markdown : List Char,
      ((validateReadmeOutput markdown).valid = true
          ↔ (validateReadmeOutput markdown).errors = []) ∧
      (tooShortError ∈ (validateReadmeOutput markdown).errors ↔ markdown.length < 200) ∧
      (missingHeadersError ∈ (validateReadmeOutput markdown).errors
          ↔ countHeaderMatches markdown < 2) ∧
      (unclosedFenceError ∈ (validateReadmeOutput markdown).errors
          ↔ fenceCount markdown % 2 ≠ 0) ∧
      (metaCommentaryError ∈ (validateReadmeOutput markdown).errors
          ↔ metaCommentaryDetected markdown = true) := by
  intro markdown
  have d12 : tooShortError ≠ missingHeadersError := by decide
  have d13 : tooShortError ≠ unclosedFenceError := by decide
  have d14 : tooShortError ≠ metaCommentaryError := by decide
  have d23 : missingHeadersError ≠ unclosedFenceError := by decide
  have d24 : missingHeadersError ≠ metaCommentaryError := by decide
  have d34 : unclosedFenceError ≠ metaCommentaryError := by decide
  simp only [validateReadmeOutput]
  by_cases h1 : markdown.length < 200 <;>
    by_cases h2 : countHeaderMatches markdown < 2 <;>
      by_cases h3 : fenceCount markdown % 2 = 0 <;>
        by_cases h4 : metaCommentaryDetected markdown = true <;>
          simp [h1, h2, h3, h4, d12, d13, d14, d23, d24, d34,
            d12.symm, d13.symm, d14.symm, d23.symm, d24.symm, d34.symm]

/-- List concatenation accumulated by a left fold, as the streaming loop
accumulates fragments. -/
theorem foldl_append_eq_flatten :
    ∀ (l : List (List Char)) (acc : List Char),
      l.foldl (· ++ ·) acc = acc ++ l.flatten := by
  intro l
  induction l with
  | nil => intro acc; simp
  | cons x xs ih => intro acc; simp [ih, List.append_assoc]

/-- Claim C7: for a streaming provider response producing a fragment
sequence, the chunk callback log equals the fragment list (one synchronous
invocation per fragment, in exact arrival order), the returned document is
the cleanup of the concatenation of all fragments, and the entry point
succeeds regardless of whether the accumulated document validates, since a
validation failure is only logged on this path. -/
theorem streaming_chunks_in_order :
    ∀ (key : List Char) (config : ReadmeConfig) (fragments : List (List Char)),
      (generateReadmeStreaming (some key) config (.ok (.streamed fragments))).chunkCalls
        = fragments ∧
      (generateReadmeStreaming (some key) config (.ok (.streamed fragments))).result
        = .ok (cleanupMarkdown fragments.flatten) := by
  intro key config fragments
  constructor
  · rfl
  · show Except.ok (cleanupMarkdown (List.foldl (· ++ ·) [] fragments))
        = Except.ok (cleanupMarkdown fragments.flatten)
    rw [foldl_append_eq_flatten fragments [], List.nil_append]

/-- Claim C8, amended: normalization of the non-streaming response payload
is total — it produces a document for every payload shape and never fails —
but the priority order tests truthiness, not mere presence: a plain string
is taken as is; an object with a non-empty content field yields that field;
otherwise a non-empty nested choices content yields that value; otherwise
the serialization of the whole object is used, including when a content or
choices field is present but empty; and a payload that is neither a string
nor an object yields the empty document rather than a serialization. -/
theorem normalize_priority_with_truthiness :
    ∀ (s ser : List Char) (x y : Char) (c cc : List Char) (cho : Option (List Char)),
      normalizeOutput (.strPayload s) = s ∧
      normalizeOutput (.objPayload
        { content := some (x :: c), choicesContent := cho, serialized := ser }) = x :: c ∧
      normalizeOutput (.objPayload
        { content := none, choicesContent := some (y :: cc), serialized := ser }) = y :: cc ∧
      normalizeOutput (.objPayload
        { content := some [], choicesContent := some (y :: cc), serialized := ser }) = y :: cc ∧
      normalizeOutput (.objPayload
        { content := none, choicesContent := none, serialized := ser }) = ser ∧
      normalizeOutput (.objPayload
        { content := some [], choicesContent := none, serialized := ser }) = ser ∧
      normalizeOutput (.objPayload
        { content := none, choicesContent := some [], serialized := ser }) = ser ∧
      normalizeOutput (.objPayload
        { content := some [], choicesContent := some [], serialized := ser }) = ser ∧
      normalizeOutput .otherPayload = [] := by
  intro s ser x y c cc cho
  exact ⟨rfl, rfl, rfl, rfl, rfl, rfl, rfl, rfl, rfl⟩

/-- Counterexample to claim C8 as stated: a concrete object payload exposing
a content field whose value is the empty string is normalized to the
serialization of the whole payload, not to that content field. -/
theorem normalize_empty_content_skipped :
    normalizeOutput
        (.objPayload
          { content := some [], choicesContent := none, serialized := "\x7b\x7d".toList })
      = "\x7b\x7d".toList ∧
    normalizeOutput
        (.objPayload
          { content := some [], choicesContent := none, serialized := "\x7b\x7d".toList })
      ≠ ([] : List Char) := by
  exact ⟨rfl, by decide⟩

/-- Claim C9: the prompt builder is a pure function of the configuration, so
identical configurations yield byte-identical instructions, and its output
decomposes as the base prompt, the style addition, then the three optional
clauses in the fixed order architecture, security, contributing; toggling
one boolean flag with the rest of the configuration held fixed changes the
instruction by exactly the presence or absence of that clause at its fixed
position. -/
theorem buildSystemPrompt_clause_structure :
    ∀ config : ReadmeConfig,
      buildSystemPrompt config
        = basePrompt ++ styleAddition (config.style.getD ReadmeStyle.standard)
          ++ (if config.includeArchitecture then architectureClause else [])
          ++ (if config.includeSecurity then securityClause else [])
          ++ (if config.includeContributing then contributingClause else []) ∧
      buildSystemPrompt { config with includeArchitecture := true }
        = basePrompt ++ styleAddition (config.style.getD ReadmeStyle.standard)
          ++ architectureClause
          ++ (if config.includeSecurity then securityClause else [])
          ++ (if config.includeContributing then contributingClause else []) ∧
      buildSystemPrompt { config with includeArchitecture := false }
        = basePrompt ++ styleAddition (config.style.getD ReadmeStyle.standard)
          ++ (if config.includeSecurity then securityClause else [])
          ++ (if config.includeContributing then contributingClause else []) ∧
      buildSystemPrompt { config with includeSecurity := true }
        = basePrompt ++ styleAddition (config.style.getD ReadmeStyle.standard)
          ++ (if config.includeArchitecture then architectureClause else [])
          ++ securityClause
          ++ (if config.includeContributing then contributingClause else []) ∧
      buildSystemPrompt { config with includeSecurity := false }
        = basePrompt ++ styleAddition (config.style.getD ReadmeStyle.standard)
          ++ (if config.includeArchitecture then architectureClause else [])
          ++ (if config.includeContributing then contributingClause else []) ∧
      buildSystemPrompt { config with includeContributing := true }
        = basePrompt ++ styleAddition (config.style.getD ReadmeStyle.standard)
          ++ (if config.includeArchitecture then architectureClause else [])
          ++ (if config.includeSecurity then securityClause else [])
          ++ contributingClause ∧
      buildSystemPrompt { config with includeContributing := false }
        = basePrompt ++ styleAddition (config.style.getD ReadmeStyle.standard)
          ++ (if config.includeArchitecture then architectureClause else [])
          ++ (if config.includeSecurity then securityClause else []) := by
  intro config
  obtain ⟨st, fa, fs, fc, mo, te, fl⟩ := config
  cases fa <;> cases fs <;> cases fc <;>
    simp [buildSystemPrompt, List.append_assoc]

/-- Claim C10: with the credential present, the streaming entry point always
issues its provider call with the streaming option enabled and with the
default temperature of seven tenths substituted whenever the configured
temperature is absent or zero; the issued temperature equals a configured
temperature value exactly when that value is non-zero. -/
theorem streaming_temperature_defaulting :
    ∀ (key : List Char) (config : ReadmeConfig) (response : Except RawError StreamResponse)
      (t : ℚ),
      (generateReadmeStreaming (some key) { config with temperature := some 0 }
          response).callIssued
        = some { modelName := config.model.getD defaultModelName, stream := true,
                 temperature := 7 / 10 } ∧
      (generateReadmeStreaming (some key) { config with temperature := none }
          response).callIssued
        = some { modelName := config.model.getD defaultModelName, stream := true,
                 temperature := 7 / 10 } ∧
      ((generateReadmeStreaming (some key) { config with temperature := some t }
          response).callIssued
        = some { modelName := config.model.getD defaultModelName, stream := true,
                 temperature := t } ↔ t ≠ 0) := by
  intro key config response t
  have hcall : ∀ tc : Option ℚ,
      (generateReadmeStreaming (some key) { config with temperature := tc }
          response).callIssued
        = some { modelName := config.model.getD defaultModelName, stream := true,
                 temperature := effectiveTemperature tc } := by
    intro tc
    cases response with
    | error e => rfl
    | ok r => cases r <;> rfl
  refine ⟨?_, ?_, ?_⟩
  · rw [hcall (some 0)]
    norm_num [effectiveTemperature]
  · rw [hcall none]
    rfl
  · rw [hcall (some t)]
    constructor
    · intro h h0
      subst h0
      have hfield : effectiveTemperature (some 0) = 0 :=
        congrArg RunOptions.temperature (Option.some.inj h)
      rw [show effectiveTemperature (some 0) = 7 / 10 from by norm_num [effectiveTemperature]]
        at hfield
      norm_num at hfield
    · intro h0
      rw [show effectiveTemperature (some t) = t from by simp [effectiveTemperature, h0]]

end ReadmeGen

